import Mathlib

/-!
Verification of `src/bot.py` (SpotifyLinkDownloader), a Telegram bot that
accepts Spotify URLs, shells out to the external `spotdl` tool, and returns
the resulting audio file(s), zipped when there is more than one.

The handlers are embedded as pure functions.  Effects are made explicit:

* the module-level dict `pending_downloads` becomes a function
  `Nat → Option String` (user id to the stored url) threaded through the
  handlers;
* whether the directory `"downloads"` exists becomes a `Bool` field of the
  state;
* the outcome of the `subprocess.run` call inside `run_spotdl` (timeout,
  return code, and the directory walk of the output directory) is an
  explicit input of type `SpotdlOutcome`;
* whether `reply_document` / `reply_audio` raises (the `except` branch of
  `button_handler`) is an explicit `Bool` input;
* everything the handlers send over the Telegram API is recorded as a list
  of `Action`s.
-/

namespace SpotifyBot

/-- Python `str.startswith(p)`: `p` is a prefix of `s`. -/
def strStartsWith (s p : String) : Bool :=
  p.data.isPrefixOf s.data

/-- Python `str.endswith(p)`: `p` is a suffix of `s`. -/
def strEndsWith (s p : String) : Bool :=
  p.data.isSuffixOf s.data

/-- Python `str.strip()`: remove leading and trailing whitespace. -/
def pyStrip (s : String) : String :=
  String.mk (((s.data.dropWhile Char.isWhitespace).reverse.dropWhile
    Char.isWhitespace).reverse)

/-- Python `str.upper()` (used only to build caption texts). -/
def pyUpper (s : String) : String :=
  String.mk (s.data.map Char.toUpper)

/-- Python `s.split("_", 1)[1]` on the underlying character list: everything
after the first `'_'`.  In `button_handler` this is evaluated only under the
guard `data.startswith("format_")`, so an underscore is always present. -/
def splitOnceAfter : List Char → List Char
  | [] => []
  | c :: cs => if c = '_' then cs else splitOnceAfter cs

/-- `os.path.join(root, file)` as produced by walking the download directory
(`root` never carries a trailing separator there). -/
def joinPath (root file : String) : String :=
  root ++ "/" ++ file

/-- `os.path.relpath(filepath, "downloads")` for the paths produced by
walking `"downloads"`: every such path starts with `"downloads/"`, and the
relative path is what follows that prefix. -/
def relpathFromDownloads (p : String) : String :=
  if strStartsWith p "downloads/" then String.mk (p.data.drop 10) else p

/-- `SUPPORTED_FORMATS = ["mp3", "m4a", "flac", "opus"]` (bot.py line 38). -/
def SUPPORTED_FORMATS : List String := ["mp3", "m4a", "flac", "opus"]

/-- Outcome of the `subprocess.run` call in `run_spotdl`: either the
300-second timeout fired (`subprocess.TimeoutExpired`), or the process
completed with a return code and the subsequent `os.walk(download_dir)`
yields the given `(root, filename)` pairs. -/
inductive SpotdlOutcome where
  | timeout : SpotdlOutcome
  | completed (returncode : Int) (walk : List (String × String)) : SpotdlOutcome
deriving DecidableEq

/-- `run_spotdl` (bot.py lines 44-77), as a function of the subprocess
outcome and the requested audio format.  The function first resets the
download directory (modelled on the state by the caller), runs `spotdl`,
returns `[]` on timeout or nonzero return code, and otherwise collects, from
the directory walk, every file whose name ends in `"." + audio_format`. -/
def run_spotdl (outcome : SpotdlOutcome) (audio_format : String) : List String :=
  match outcome with
  | .timeout => []
  | .completed returncode walk =>
    if returncode ≠ 0 then []
    else
      (walk.filter (fun rf => strEndsWith rf.2 ("." ++ audio_format))).map
        (fun rf => joinPath rf.1 rf.2)

/-- The `valid_prefixes` tuple of `handle_message` (bot.py lines 121-128). -/
def valid_prefixes : List String :=
  [ "https://open.spotify.com/track/",
    "https://open.spotify.com/playlist/",
    "https://open.spotify.com/album/",
    "spotify:track:",
    "spotify:playlist:",
    "spotify:album:" ]

/-- What `handle_message` sends back: the format-selection keyboard (with
the callback data of its buttons) or the invalid-URL text. -/
inductive Reply where
  | formatChoice (buttons : List String) : Reply
  | invalidUrl : Reply
deriving DecidableEq

/-- `handle_message` (bot.py lines 116-144): strip the text, and if it
starts with a valid Spotify prefix store `{"url": message}` for the user and
offer the format keyboard; otherwise reply that the URL is invalid. -/
def handle_message (pending : Nat → Option String) (user_id : Nat)
    (text : String) : (Nat → Option String) × Reply :=
  let message := pyStrip text
  if valid_prefixes.any (fun p => strStartsWith message p) then
    (fun u => if u = user_id then some message else pending u,
     Reply.formatChoice (SUPPORTED_FORMATS.map (fun fmt => "format_" ++ fmt)))
  else
    (pending, Reply.invalidUrl)

/-- The in-memory state touched by `button_handler`: the
`pending_downloads` map and whether the `"downloads"` directory exists. -/
structure BotState where
  pending : Nat → Option String
  downloadsExists : Bool

/-- Everything `button_handler` sends over the Telegram API, plus the
invocation of the downloader, in order of occurrence.  A zip document is
recorded with its filename and its entries `(arcname, filepath)` exactly as
written by the `zipfile.ZipFile` loop. -/
inductive Action where
  | answerQuery : Action
  | editText (text : String) : Action
  | runDownload (url audio_format : String) : Action
  | replyDocument (filename : String) (entries : List (String × String))
      (caption : String) : Action
  | replyAudio (filepath : String) (caption : String) : Action
  | replyText (text : String) : Action
  | answerAlert (text : String) : Action
deriving DecidableEq

/-- `pending_downloads.pop(user_id, None)`. -/
def popUser (pending : Nat → Option String) (user_id : Nat) :
    Nat → Option String :=
  fun u => if u = user_id then none else pending u

/-- `button_handler` (bot.py lines 147-229).  `outcome` is the subprocess
outcome observed by the `run_spotdl` call (if one is made), `sendRaises`
tells whether `reply_document`/`reply_audio` raises (the `except` branch).
Returns the new state and the trace of actions.  Note that `run_spotdl`
itself recreates the `"downloads"` directory before running `spotdl`
(bot.py lines 46-48), so the directory exists right after the
`run_in_executor` call returns. -/
def button_handler (st : BotState) (user_id : Nat) (data : String)
    (outcome : SpotdlOutcome) (sendRaises : Bool) : BotState × List Action :=
  if data = "help" then
    (st, [Action.answerQuery,
          Action.editText ("*Help Menu*\n\nSend a Spotify link to download music.\n"
            ++ "After sending, choose your format.\nUse /status to check bot status.")])
  else if data = "status" then
    (st, [Action.answerQuery,
          Action.editText "✅ Bot is operational and ready to download Spotify music."])
  else if strStartsWith data "format_" then
    match st.pending user_id with
    | none =>
      (st, [Action.answerQuery,
            Action.editText "⚠️ No pending downloads. Send a Spotify link first."])
    | some url =>
      let selected_format := String.mk (splitOnceAfter data.data)
      if selected_format ∉ SUPPORTED_FORMATS then
        (st, [Action.answerQuery, Action.editText "❌ Invalid format selected."])
      else
        let downloaded_files := run_spotdl outcome selected_format
        -- run_spotdl has deleted and recreated "downloads" by now
        let acts0 : List Action :=
          [Action.answerQuery,
           Action.editText ("⏬ Downloading in *" ++ pyUpper selected_format
             ++ "* format. Please wait..."),
           Action.runDownload url selected_format]
        if downloaded_files = [] then
          ({ pending := popUser st.pending user_id, downloadsExists := false },
           acts0 ++ [Action.editText "❌ Failed to download. Try again later."])
        else
          let sendActs : List Action :=
            if downloaded_files.length > 1 then
              [Action.replyDocument
                ("spotify_download." ++ selected_format ++ ".zip")
                (downloaded_files.map (fun fp => (relpathFromDownloads fp, fp)))
                ("✅ Downloaded " ++ toString downloaded_files.length
                  ++ " tracks in *" ++ pyUpper selected_format ++ "* format.")]
            else
              [Action.replyAudio (downloaded_files.headI)
                ("✅ Here's your track in *" ++ pyUpper selected_format
                  ++ "* format!")]
          let sendActs :=
            if sendRaises then
              sendActs ++ [Action.replyText "❌ Failed to send file(s). Try again."]
            else sendActs
          ({ pending := popUser st.pending user_id, downloadsExists := false },
           acts0 ++ sendActs)
  else
    (st, [Action.answerQuery, Action.answerAlert "Unknown action."])

/-! ### Helper lemmas about callback data of the form "format_X" -/

theorem sw_format (X : String) : strStartsWith ("format_" ++ X) "format_" = true := by
  simp [strStartsWith, String.data_append]

theorem sel_format (X : String) :
    String.mk (splitOnceAfter ("format_" ++ X).data) = X := by
  have h : splitOnceAfter ("format_" ++ X).data = X.data := by
    simp [String.data_append]
    show splitOnceAfter ("format_".data ++ X.data) = X.data
    simp [splitOnceAfter]
  rw [h]

theorem format_ne_help (X : String) : ("format_" ++ X) ≠ "help" := by
  intro h
  have := congrArg String.data h
  simp [String.data_append] at this

theorem format_ne_status (X : String) : ("format_" ++ X) ≠ "status" := by
  intro h
  have := congrArg String.data h
  simp [String.data_append] at this

/-- Reduction of `button_handler` on callback data `"format_" ++ X` for a
user with a pending url, down to the format-validity check. -/
theorem button_handler_format (st : BotState) (user_id : Nat) (X url : String)
    (outcome : SpotdlOutcome) (sendRaises : Bool)
    (hp : st.pending user_id = some url) :
    button_handler st user_id ("format_" ++ X) outcome sendRaises =
      if X ∉ SUPPORTED_FORMATS then
        (st, [Action.answerQuery, Action.editText "❌ Invalid format selected."])
      else
        let downloaded_files := run_spotdl outcome X
        let acts0 : List Action :=
          [Action.answerQuery,
           Action.editText ("⏬ Downloading in *" ++ pyUpper X
             ++ "* format. Please wait..."),
           Action.runDownload url X]
        if downloaded_files = [] then
          ({ pending := popUser st.pending user_id, downloadsExists := false },
           acts0 ++ [Action.editText "❌ Failed to download. Try again later."])
        else
          let sendActs : List Action :=
            if downloaded_files.length > 1 then
              [Action.replyDocument
                ("spotify_download." ++ X ++ ".zip")
                (downloaded_files.map (fun fp => (relpathFromDownloads fp, fp)))
                ("✅ Downloaded " ++ toString downloaded_files.length
                  ++ " tracks in *" ++ pyUpper X ++ "* format.")]
            else
              [Action.replyAudio (downloaded_files.headI)
                ("✅ Here's your track in *" ++ pyUpper X ++ "* format!")]
          let sendActs :=
            if sendRaises then
              sendActs ++ [Action.replyText "❌ Failed to send file(s). Try again."]
            else sendActs
          ({ pending := popUser st.pending user_id, downloadsExists := false },
           acts0 ++ sendActs) := by
  rw [button_handler, if_neg (format_ne_help X), if_neg (format_ne_status X)]
  simp only [sw_format X, if_true, hp, sel_format X]

/-! ### Claim theorems -/

/-- C1, counterexample to the claim as stated: the callback data
`"format_wav"` starts with `"format_"` and the user has a pending entry, yet
`button_handler` (taking the invalid-format early return of bot.py lines
178-180) leaves the user's `pending_downloads` record in place. -/
theorem C1_counterexample :
    strStartsWith "format_wav" "format_" = true ∧
    (button_handler
        ⟨fun u => if u = 1 then some "spotify:track:abc" else none, false⟩
        1 "format_wav" SpotdlOutcome.timeout false).1.pending 1
      = some "spotify:track:abc" := by
  constructor
  · decide
  · rfl

/-- C1 (amended): for every user with an entry in `pending_downloads`, when
that user selects a supported format (callback data `"format_" ++ fmt` with
`fmt ∈ SUPPORTED_FORMATS`), the user's pending record is removed by the end
of the callback handling — both when the download fails and when it
succeeds, whatever the subprocess outcome and whether or not sending
raises. -/
theorem C1_pending_removed (st : BotState) (user_id : Nat) (fmt url : String)
    (outcome : SpotdlOutcome) (sendRaises : Bool)
    (hp : st.pending user_id = some url) (hf : fmt ∈ SUPPORTED_FORMATS) :
    (button_handler st user_id ("format_" ++ fmt) outcome
        sendRaises).1.pending user_id = none := by
  rw [button_handler_format st user_id fmt url outcome sendRaises hp,
    if_neg (not_not_intro hf)]
  simp only []
  split <;> simp [popUser]

/-- Witness for C1: a concrete run in which the pending entry of user 7 is
deleted. -/
theorem C1_witness :
    ((fun u => if u = 7 then some "spotify:album:z" else none) 7
        = some "spotify:album:z") ∧
    (button_handler
        ⟨fun u => if u = 7 then some "spotify:album:z" else none, false⟩
        7 ("format_" ++ "mp3") SpotdlOutcome.timeout false).1.pending 7
      = none :=
  ⟨rfl, C1_pending_removed
    ⟨fun u => if u = 7 then some "spotify:album:z" else none, false⟩
    7 "mp3" "spotify:album:z" SpotdlOutcome.timeout false rfl (by decide)⟩

/-- C8: a callback `"format_" ++ X` with `X` unsupported, from a user with a
pending record, only edits the message to "Invalid format selected": the
whole state (in particular that user's pending record) is unchanged and no
download is invoked. -/
theorem C8_invalid_format (st : BotState) (user_id : Nat) (X url : String)
    (outcome : SpotdlOutcome) (sendRaises : Bool)
    (hp : st.pending user_id = some url) (hX : X ∉ SUPPORTED_FORMATS) :
    (button_handler st user_id ("format_" ++ X) outcome sendRaises).1 = st ∧
    Action.editText "❌ Invalid format selected."
      ∈ (button_handler st user_id ("format_" ++ X) outcome sendRaises).2 ∧
    ∀ u f, Action.runDownload u f
      ∉ (button_handler st user_id ("format_" ++ X) outcome sendRaises).2 := by
  rw [button_handler_format st user_id X url outcome sendRaises hp, if_pos hX]
  simp

/-- Witness for C8: user 2 selects `"format_wav"`; the state is returned
untouched and no download happens. -/
theorem C8_witness :
    ((fun u => if u = 2 then some "spotify:track:q" else none) 2
        = some "spotify:track:q") ∧
    (button_handler
        ⟨fun u => if u = 2 then some "spotify:track:q" else none, true⟩
        2 ("format_" ++ "wav") SpotdlOutcome.timeout false).1
      = ⟨fun u => if u = 2 then some "spotify:track:q" else none, true⟩ ∧
    (∀ u f, Action.runDownload u f
      ∉ (button_handler
          ⟨fun u => if u = 2 then some "spotify:track:q" else none, true⟩
          2 ("format_" ++ "wav") SpotdlOutcome.timeout false).2) :=
  ⟨rfl,
   (C8_invalid_format
      ⟨fun u => if u = 2 then some "spotify:track:q" else none, true⟩
      2 "wav" "spotify:track:q" SpotdlOutcome.timeout false rfl (by decide)).1,
   (C8_invalid_format
      ⟨fun u => if u = 2 then some "spotify:track:q" else none, true⟩
      2 "wav" "spotify:track:q" SpotdlOutcome.timeout false rfl (by decide)).2.2⟩

/-- C9: whenever a format selection reaches the download stage (pending
record present and supported format), the `"downloads"` directory no longer
exists at the end of `button_handler`: the failure branch removes it, and
the `finally` block removes it after any attempt to send the files. -/
theorem C9_downloads_removed (st : BotState) (user_id : Nat) (fmt url : String)
    (outcome : SpotdlOutcome) (sendRaises : Bool)
    (hp : st.pending user_id = some url) (hf : fmt ∈ SUPPORTED_FORMATS) :
    (button_handler st user_id ("format_" ++ fmt) outcome
        sendRaises).1.downloadsExists = false := by
  rw [button_handler_format st user_id fmt url outcome sendRaises hp,
    if_neg (not_not_intro hf)]
  simp only []
  split <;> simp

/-- Witness for C9: concrete run, including one where sending raises. -/
theorem C9_witness :
    ((fun u => if u = 3 then some "spotify:track:w" else none) 3
        = some "spotify:track:w") ∧
    (button_handler
        ⟨fun u => if u = 3 then some "spotify:track:w" else none, true⟩
        3 ("format_" ++ "flac")
        (SpotdlOutcome.completed 0 [("downloads", "a.flac")]) true).1.downloadsExists
      = false :=
  ⟨rfl, C9_downloads_removed
    ⟨fun u => if u = 3 then some "spotify:track:w" else none, true⟩
    3 "flac" "spotify:track:w"
    (SpotdlOutcome.completed 0 [("downloads", "a.flac")]) true rfl (by decide)⟩

/-- C2: `handle_message` treats the stripped text as a valid Spotify URL —
storing a pending record for the user and offering the four format
choices — exactly when it starts with one of the six valid prefixes, and
otherwise replies that the URL is invalid, leaving the map unchanged. -/
theorem C2_url_validation (pending : Nat → Option String) (user_id : Nat)
    (text : String) :
    ((strStartsWith (pyStrip text) "https://open.spotify.com/track/" = true ∨
      strStartsWith (pyStrip text) "https://open.spotify.com/playlist/" = true ∨
      strStartsWith (pyStrip text) "https://open.spotify.com/album/" = true ∨
      strStartsWith (pyStrip text) "spotify:track:" = true ∨
      strStartsWith (pyStrip text) "spotify:playlist:" = true ∨
      strStartsWith (pyStrip text) "spotify:album:" = true) →
      (handle_message pending user_id text).1 user_id = some (pyStrip text) ∧
      (handle_message pending user_id text).2 =
        Reply.formatChoice ["format_mp3", "format_m4a", "format_flac", "format_opus"]) ∧
    (¬ (strStartsWith (pyStrip text) "https://open.spotify.com/track/" = true ∨
        strStartsWith (pyStrip text) "https://open.spotify.com/playlist/" = true ∨
        strStartsWith (pyStrip text) "https://open.spotify.com/album/" = true ∨
        strStartsWith (pyStrip text) "spotify:track:" = true ∨
        strStartsWith (pyStrip text) "spotify:playlist:" = true ∨
        strStartsWith (pyStrip text) "spotify:album:" = true) →
      (handle_message pending user_id text).1 = pending ∧
      (handle_message pending user_id text).2 = Reply.invalidUrl) := by
  unfold handle_message
  simp only [valid_prefixes, List.any_cons, List.any_nil, Bool.or_eq_true,
    Bool.false_eq_true, or_false, SUPPORTED_FORMATS, List.map]
  constructor
  · intro h
    rw [if_pos h]
    simp
  · intro h
    rw [if_neg h]
    exact ⟨rfl, rfl⟩

/-- Witness for C2: a message with surrounding whitespace around a track URL
is accepted, stored stripped, and answered with the format keyboard. -/
theorem C2_witness :
    (handle_message (fun _ => none) 4 " spotify:track:xyz ").1 4
      = some (pyStrip " spotify:track:xyz ") ∧
    (handle_message (fun _ => none) 4 " spotify:track:xyz ").2 =
      Reply.formatChoice ["format_mp3", "format_m4a", "format_flac", "format_opus"] :=
  (C2_url_validation (fun _ => none) 4 " spotify:track:xyz ").1 (by decide)

/-- C5: on every valid submission the user's entry in `pending_downloads` is
set to exactly the newly submitted (stripped) URL, overwriting whatever was
stored for that user before; the map keeps at most one record per user by
construction (it is a function from user ids). -/
theorem C5_overwrite (pending : Nat → Option String) (user_id : Nat)
    (text : String)
    (h : valid_prefixes.any (fun p => strStartsWith (pyStrip text) p) = true) :
    (handle_message pending user_id text).1 user_id = some (pyStrip text) := by
  unfold handle_message
  simp only [h, if_true, if_pos rfl]

/-- Witness for C5: user 6 already has a stored URL and submits a new one;
the entry afterwards holds exactly the new URL. -/
theorem C5_witness :
    ((fun u => if u = 6 then some "spotify:track:old" else none) 6
        = some "spotify:track:old") ∧
    (handle_message (fun u => if u = 6 then some "spotify:track:old" else none)
        6 "spotify:track:new").1 6 = some (pyStrip "spotify:track:new") :=
  ⟨rfl, C5_overwrite (fun u => if u = 6 then some "spotify:track:old" else none)
    6 "spotify:track:new" (by decide)⟩

/-- C6: a text message that does not start with a valid prefix leaves
`pending_downloads` entirely unchanged — the resulting map is the old map,
so no entry of any user is created, modified or deleted. -/
theorem C6_frame (pending : Nat → Option String) (user_id : Nat)
    (text : String)
    (h : valid_prefixes.any (fun p => strStartsWith (pyStrip text) p) = false) :
    (handle_message pending user_id text).1 = pending := by
  unfold handle_message
  simp only [h, Bool.false_eq_true, if_false]

/-- Witness for C6: the message "hello" changes nothing in a map that holds
an entry for user 5. -/
theorem C6_witness :
    valid_prefixes.any (fun p => strStartsWith (pyStrip "hello") p) = false ∧
    (handle_message (fun u => if u = 5 then some "spotify:track:k" else none)
        9 "hello").1
      = (fun u => if u = 5 then some "spotify:track:k" else none) :=
  ⟨by decide,
   C6_frame (fun u => if u = 5 then some "spotify:track:k" else none)
     9 "hello" (by decide)⟩

/-- C4: when the subprocess exits with return code 0, `run_spotdl` returns
exactly the files of the walk of the download directory whose names end in
`"." ++ audio_format` (joined to their directory); files with any other
extension are excluded. -/
theorem C4_collect (walk : List (String × String)) (audio_format p : String) :
    p ∈ run_spotdl (SpotdlOutcome.completed 0 walk) audio_format ↔
      ∃ root file, (root, file) ∈ walk ∧
        strEndsWith file ("." ++ audio_format) = true ∧
        p = joinPath root file := by
  simp only [run_spotdl, ne_eq, not_true_eq_false, if_false, List.mem_map,
    List.mem_filter, reduceIte]
  constructor
  · rintro ⟨⟨root, file⟩, ⟨hm, he⟩, hp⟩
    exact ⟨root, file, hm, he, hp.symm⟩
  · rintro ⟨root, file, hm, he, hp⟩
    exact ⟨(root, file), ⟨hm, he⟩, hp.symm⟩

/-- Witness for C4: a walk with one mp3 and one jpg yields exactly the
joined mp3 path. -/
theorem C4_witness :
    "downloads/a.mp3"
      ∈ run_spotdl
          (SpotdlOutcome.completed 0
            [("downloads", "a.mp3"), ("downloads", "cover.jpg")]) "mp3" ∧
    ¬ "downloads/cover.jpg"
      ∈ run_spotdl
          (SpotdlOutcome.completed 0
            [("downloads", "a.mp3"), ("downloads", "cover.jpg")]) "mp3" :=
  ⟨(C4_collect [("downloads", "a.mp3"), ("downloads", "cover.jpg")] "mp3"
      "downloads/a.mp3").mpr
    ⟨"downloads", "a.mp3", by decide, by decide, by decide⟩,
   by decide⟩

/-- C7: `run_spotdl` is total over subprocess outcomes: the timeout and
every nonzero return code yield `[]` (no exception escapes), and a non-empty
result only arises from a completed run with return code 0. -/
theorem C7_total (audio_format : String) (outcome : SpotdlOutcome) :
    (outcome = SpotdlOutcome.timeout →
      run_spotdl outcome audio_format = []) ∧
    (∀ rc walk, outcome = SpotdlOutcome.completed rc walk → rc ≠ 0 →
      run_spotdl outcome audio_format = []) ∧
    (run_spotdl outcome audio_format ≠ [] →
      ∃ walk, outcome = SpotdlOutcome.completed 0 walk) := by
  refine ⟨?_, ?_, ?_⟩
  · rintro rfl; rfl
  · rintro rc walk rfl hrc
    simp [run_spotdl, hrc]
  · intro hne
    match outcome with
    | SpotdlOutcome.timeout => exact absurd rfl hne
    | SpotdlOutcome.completed rc walk =>
      refine ⟨walk, ?_⟩
      rcases eq_or_ne rc 0 with h | h
      · rw [h]
      · exact absurd (by simp [run_spotdl, h]) hne

/-- Witness for C7: concrete timeout, concrete failing return code, and a
concrete non-empty result forcing return code 0. -/
theorem C7_witness :
    run_spotdl SpotdlOutcome.timeout "mp3" = [] ∧
    run_spotdl (SpotdlOutcome.completed 1 [("downloads", "a.mp3")]) "mp3" = [] ∧
    ∃ walk, SpotdlOutcome.completed 0 [("downloads", "a.mp3")]
      = SpotdlOutcome.completed 0 walk :=
  ⟨(C7_total "mp3" SpotdlOutcome.timeout).1 rfl,
   (C7_total "mp3" (SpotdlOutcome.completed 1 [("downloads", "a.mp3")])).2.1
     1 [("downloads", "a.mp3")] rfl (by decide),
   (C7_total "mp3" (SpotdlOutcome.completed 0 [("downloads", "a.mp3")])).2.2
     (by decide)⟩

/-- C3: on a format selection that downloads a non-empty list of files, a
zip document — whose entries are exactly the downloaded files under their
`relpath` arcnames — is sent if and only if there is more than one file, and
a single downloaded file is sent unzipped as an audio message. -/
theorem C3_zip_or_audio (st : BotState) (user_id : Nat) (fmt url : String)
    (outcome : SpotdlOutcome) (sendRaises : Bool)
    (hp : st.pending user_id = some url) (hf : fmt ∈ SUPPORTED_FORMATS)
    (hne : run_spotdl outcome fmt ≠ []) :
    ((∃ c, Action.replyDocument ("spotify_download." ++ fmt ++ ".zip")
        ((run_spotdl outcome fmt).map (fun fp => (relpathFromDownloads fp, fp))) c
        ∈ (button_handler st user_id ("format_" ++ fmt) outcome sendRaises).2)
      ↔ 1 < (run_spotdl outcome fmt).length) ∧
    (1 < (run_spotdl outcome fmt).length →
      ∀ p c, Action.replyAudio p c
        ∉ (button_handler st user_id ("format_" ++ fmt) outcome sendRaises).2) ∧
    (∀ f, run_spotdl outcome fmt = [f] →
      (∃ c, Action.replyAudio f c
        ∈ (button_handler st user_id ("format_" ++ fmt) outcome sendRaises).2) ∧
      ∀ n e c, Action.replyDocument n e c
        ∉ (button_handler st user_id ("format_" ++ fmt) outcome sendRaises).2) := by
  rw [button_handler_format st user_id fmt url outcome sendRaises hp,
    if_neg (not_not_intro hf)]
  simp only []
  rw [if_neg hne]
  refine ⟨?_, ?_, ?_⟩
  · by_cases hlen : 1 < (run_spotdl outcome fmt).length
    · simp only [hlen, iff_true]
      cases sendRaises <;>
        exact ⟨"✅ Downloaded " ++ toString (run_spotdl outcome fmt).length
          ++ " tracks in *" ++ pyUpper fmt ++ "* format.", by simp [hlen]⟩
    · simp only [gt_iff_lt, hlen, if_false]
      cases sendRaises <;> simp [hlen]
  · intro hlen p c
    simp only [gt_iff_lt, hlen, if_true]
    cases sendRaises <;> simp
  · intro f hfeq
    have hlen : ¬ 1 < (run_spotdl outcome fmt).length := by
      rw [hfeq]; simp
    simp only [gt_iff_lt, hlen, if_false, hfeq]
    cases sendRaises <;> simp [List.headI]

/-- Witness for C3: a two-file download is sent as a zip document, a
one-file download as audio. -/
theorem C3_witness :
    ((∃ c, Action.replyDocument ("spotify_download." ++ "mp3" ++ ".zip")
        ((run_spotdl
            (SpotdlOutcome.completed 0
              [("downloads", "a.mp3"), ("downloads", "b.mp3")]) "mp3").map
          (fun fp => (relpathFromDownloads fp, fp))) c
        ∈ (button_handler
            ⟨fun u => if u = 8 then some "spotify:album:p" else none, false⟩
            8 ("format_" ++ "mp3")
            (SpotdlOutcome.completed 0
              [("downloads", "a.mp3"), ("downloads", "b.mp3")]) false).2)) ∧
    (∃ c, Action.replyAudio "downloads/a.mp3" c
      ∈ (button_handler
          ⟨fun u => if u = 8 then some "spotify:album:p" else none, false⟩
          8 ("format_" ++ "mp3")
          (SpotdlOutcome.completed 0 [("downloads", "a.mp3")]) false).2) :=
  ⟨(C3_zip_or_audio
      ⟨fun u => if u = 8 then some "spotify:album:p" else none, false⟩
      8 "mp3" "spotify:album:p"
      (SpotdlOutcome.completed 0 [("downloads", "a.mp3"), ("downloads", "b.mp3")])
      false rfl (by decide) (by decide)).1.mpr (by decide),
   ((C3_zip_or_audio
      ⟨fun u => if u = 8 then some "spotify:album:p" else none, false⟩
      8 "mp3" "spotify:album:p"
      (SpotdlOutcome.completed 0 [("downloads", "a.mp3")])
      false rfl (by decide) (by decide)).2.2 "downloads/a.mp3" (by decide)).1⟩

end SpotifyBot
